import Mathlib

/-!
Verification of the fractal evaluation engine of `src/main.cpp`.

The C++ program computes fractals in `double` arithmetic; the shallow embedding
below models the doubles by real numbers, exactly as the specification describes
the evaluators ("total over its real-valued domain").  Iteration counts, which
the source stores in C `int`s that are only ever incremented from 0 up to a
budget, are modelled by `ℕ`.

`src/main.cpp` holds two programs separated by a document marker: the primary
program (`maxiter = 300`, eleven fractal kinds) and a reduced second variant
(`maxiter = 100`, three kinds).  Definitions of the second variant carry a
`_v2` suffix.
-/

namespace Fractals

/-- Iteration budget of the primary program (member `maxiter`, set to 300 in
the `FractalRenderer` constructor, `src/main.cpp` line 74). -/
def maxiter : ℕ := 300

/-- Iteration budget of the second program variant (line 818): 100. -/
def maxiterV2 : ℕ := 100

/-- The escape-time loop shared by all escape-time evaluators:
`while (zx2 + zy2 < bound && iteration < maxiter) { z = f(z); ++iteration; }`.
The fuel argument is the number of iterations still allowed; the result is the
number of iterations actually executed, i.e. the `iteration` value returned by
the C++ functions.  The state pair is `(zx, zy)`. -/
noncomputable def escapeSteps (f : ℝ × ℝ → ℝ × ℝ) (bound : ℝ) : ℕ → ℝ × ℝ → ℕ
  | 0, _ => 0
  | n + 1, z =>
    if z.1 * z.1 + z.2 * z.2 < bound then escapeSteps f bound n (f z) + 1 else 0

/-- One Mandelbrot step (`src/main.cpp` lines 271-272): the body computes
`zy = 2*zx*zy + cy` from the old `zx, zy` and `zx = zx2 - zy2 + cx` from the
old squares, so the update is simultaneous. -/
noncomputable def mandelStep (cx cy : ℝ) (z : ℝ × ℝ) : ℝ × ℝ :=
  (z.1 * z.1 - z.2 * z.2 + cx, 2 * z.1 * z.2 + cy)

/-- `mandelbrotPoint` (lines 266-277): seed `z = 0`, escape bound `4`. -/
noncomputable def mandelbrotPoint (cx cy : ℝ) : ℕ :=
  escapeSteps (mandelStep cx cy) 4 maxiter (0, 0)

/-- One trigonometric-Mandelbrot step (lines 285-287):
`new_zx = sin(zx)*cosh(zy) + cx; zy = cos(zx)*sinh(zy) + cy; zx = new_zx`. -/
noncomputable def sinStep (cx cy : ℝ) (z : ℝ × ℝ) : ℝ × ℝ :=
  (Real.sin z.1 * Real.cosh z.2 + cx, Real.cos z.1 * Real.sinh z.2 + cy)

/-- `mandelbrotSinPoint` (lines 279-292): escape bound `ESCAPE_RADIUS_SQUARED = 4e2`. -/
noncomputable def mandelbrotSinPoint (cx cy : ℝ) : ℕ :=
  escapeSteps (sinStep cx cy) 400 maxiter (0, 0)

/-- `mandelbrotInvPoint` (lines 294-301): circle inversion of the input, with a
small-radius guard, then delegation to `mandelbrotPoint`. -/
noncomputable def mandelbrotInvPoint (cx cy : ℝ) : ℕ :=
  let r := Real.sqrt (cx * cx + cy * cy)
  if r < 1e-10 then maxiter
  else mandelbrotPoint (cx / (r * r)) (-cy / (r * r))

/-- One Tricorn step (lines 308-309): `zy = -2*zx*zy + cy; zx = zx2 - zy2 + cx`. -/
noncomputable def tricornStep (cx cy : ℝ) (z : ℝ × ℝ) : ℝ × ℝ :=
  (z.1 * z.1 - z.2 * z.2 + cx, -2 * z.1 * z.2 + cy)

/-- `tricornPoint` (lines 303-314). -/
noncomputable def tricornPoint (cx cy : ℝ) : ℕ :=
  escapeSteps (tricornStep cx cy) 4 maxiter (0, 0)

/-- `juliaPoint` (lines 316-328): the Mandelbrot recurrence seeded at the pixel
point, with the constant taken from the Julia settings.  The settings members
`juliaCx, juliaCy` are lifted to the arguments `jcx, jcy`. -/
noncomputable def juliaPoint (jcx jcy zx zy : ℝ) : ℕ :=
  escapeSteps (mandelStep jcx jcy) 4 maxiter (zx, zy)

/-- One Burning-Ship step (lines 335-336): `zy = 2*fabs(zx*zy) + cy;
zx = zx2 - zy2 + cx`. -/
noncomputable def burningShipStep (cx cy : ℝ) (z : ℝ × ℝ) : ℝ × ℝ :=
  (z.1 * z.1 - z.2 * z.2 + cx, 2 * |z.1 * z.2| + cy)

/-- `burningShipPoint` (lines 330-341). -/
noncomputable def burningShipPoint (cx cy : ℝ) : ℕ :=
  escapeSteps (burningShipStep cx cy) 4 maxiter (0, 0)

/-- One Celtic step (lines 348-349): `zy = 2*zx*zy + cy; zx = fabs(zx2 - zy2) + cx`. -/
noncomputable def celticStep (cx cy : ℝ) (z : ℝ × ℝ) : ℝ × ℝ :=
  (|z.1 * z.1 - z.2 * z.2| + cx, 2 * z.1 * z.2 + cy)

/-- `celticPoint` (lines 343-354). -/
noncomputable def celticPoint (cx cy : ℝ) : ℕ :=
  escapeSteps (celticStep cx cy) 4 maxiter (0, 0)

/-- One Buffalo step (lines 361-362): `zy = 2*fabs(zx*zy) + cy;
zx = fabs(zx2 - zy2) + cx`. -/
noncomputable def buffaloStep (cx cy : ℝ) (z : ℝ × ℝ) : ℝ × ℝ :=
  (|z.1 * z.1 - z.2 * z.2| + cx, 2 * |z.1 * z.2| + cy)

/-- `buffaloPoint` (lines 356-367). -/
noncomputable def buffaloPoint (cx cy : ℝ) : ℕ :=
  escapeSteps (buffaloStep cx cy) 4 maxiter (0, 0)

/-- The inner root-matching loop of the Newton evaluators
(`for (j ...) if (dx_root*dx_root + dy_root*dy_root < tolerance*tolerance) return j + 1`):
returns the 1-based index of the first root within tolerance of `z`, or `0` if
none matches. -/
noncomputable def rootHit : List (ℝ × ℝ) → ℝ → ℝ × ℝ → ℕ
  | [], _, _ => 0
  | w :: rest, tol, z =>
    if (z.1 - w.1) * (z.1 - w.1) + (z.2 - w.2) * (z.2 - w.2) < tol * tol then 1
    else
      match rootHit rest tol z with
      | 0 => 0
      | k + 1 => k + 2

/-- The Newton iteration loop shared by `newton1Point`, `newton2Point` and
`newton3Point`: per step, if `denom == 0` the loop breaks and the function
returns `0`; otherwise the state is updated and checked against the root list,
returning the 1-based index on the first match; an exhausted budget returns `0`. -/
noncomputable def newtonGo (denom : ℝ × ℝ → ℝ) (upd : ℝ × ℝ → ℝ × ℝ)
    (roots : List (ℝ × ℝ)) (tol : ℝ) : ℕ → ℝ × ℝ → ℕ
  | 0, _ => 0
  | n + 1, z =>
    if denom z = 0 then 0
    else
      match rootHit roots tol (upd z) with
      | 0 => newtonGo denom upd roots tol n (upd z)
      | k + 1 => k + 1

/-- Derivative magnitude `denom = fpx*fpx + fpy*fpy` for `f(z) = z^3 - 1`
(lines 383-393): `fpx = 3*(x2 - y2)`, `fpy = 6*xy`. -/
noncomputable def newton1Denom (z : ℝ × ℝ) : ℝ :=
  let x2 := z.1 * z.1
  let y2 := z.2 * z.2
  let xy := z.1 * z.2
  let fpx := 3 * (x2 - y2)
  let fpy := 6 * xy
  fpx * fpx + fpy * fpy

/-- Newton update for `f(z) = z^3 - 1` (lines 383-397). -/
noncomputable def newton1Update (z : ℝ × ℝ) : ℝ × ℝ :=
  let x2 := z.1 * z.1
  let y2 := z.2 * z.2
  let xy := z.1 * z.2
  let fx := z.1 * (x2 - 3 * y2) - 1
  let fy := z.2 * (3 * x2 - y2)
  let fpx := 3 * (x2 - y2)
  let fpy := 6 * xy
  let denom := fpx * fpx + fpy * fpy
  (z.1 - (fx * fpx + fy * fpy) / denom, z.2 - (fy * fpx - fx * fpy) / denom)

/-- Roots of `z^3 - 1` (lines 370-374). -/
noncomputable def roots1 : List (ℝ × ℝ) :=
  [(1, 0), (-0.5, Real.sqrt 3 / 2), (-0.5, -(Real.sqrt 3 / 2))]

/-- `newton1Point` (lines 369-408): tolerance `1e-6`, budget `50`. -/
noncomputable def newton1Point (zx zy : ℝ) : ℕ :=
  newtonGo newton1Denom newton1Update roots1 1e-6 50 (zx, zy)

/-- Derivative magnitude for `f(z) = z^3 - 2z + 2` (lines 424-434):
`fpx = 3*(x2 - y2) - 2`, `fpy = 6*xy`. -/
noncomputable def newton2Denom (z : ℝ × ℝ) : ℝ :=
  let x2 := z.1 * z.1
  let y2 := z.2 * z.2
  let xy := z.1 * z.2
  let fpx := 3 * (x2 - y2) - 2
  let fpy := 6 * xy
  fpx * fpx + fpy * fpy

/-- Newton update for `f(z) = z^3 - 2z + 2` (lines 424-438). -/
noncomputable def newton2Update (z : ℝ × ℝ) : ℝ × ℝ :=
  let x2 := z.1 * z.1
  let y2 := z.2 * z.2
  let xy := z.1 * z.2
  let fx := z.1 * (x2 - 3 * y2 - 2) + 2
  let fy := z.2 * (3 * x2 - y2 - 2)
  let fpx := 3 * (x2 - y2) - 2
  let fpy := 6 * xy
  let denom := fpx * fpx + fpy * fpy
  (z.1 - (fx * fpx + fy * fpy) / denom, z.2 - (fy * fpx - fx * fpy) / denom)

/-- Roots of `z^3 - 2z + 2` (lines 411-415). -/
noncomputable def roots2 : List (ℝ × ℝ) :=
  [(-1.76929235423863, 0),
   (0.884646177119316, 0.589742805022206),
   (0.884646177119316, -0.589742805022206)]

/-- `newton2Point` (lines 410-449). -/
noncomputable def newton2Point (zx zy : ℝ) : ℕ :=
  newtonGo newton2Denom newton2Update roots2 1e-6 50 (zx, zy)

/-- Derivative magnitude for `f(z) = z^5 + z^2 - 1` (lines 467-480):
`fpx = 5*x4 - 30*x2y2 + 5*y4 + 2*zx`, `fpy = 20*xy*(x2 - y2) + 2*zy`. -/
noncomputable def newton3Denom (z : ℝ × ℝ) : ℝ :=
  let x2 := z.1 * z.1
  let y2 := z.2 * z.2
  let xy := z.1 * z.2
  let x4 := x2 * x2
  let y4 := y2 * y2
  let x2y2 := xy * xy
  let fpx := 5 * x4 - 30 * x2y2 + 5 * y4 + 2 * z.1
  let fpy := 20 * xy * (x2 - y2) + 2 * z.2
  fpx * fpx + fpy * fpy

/-- Newton update for `f(z) = z^5 + z^2 - 1` (lines 467-484). -/
noncomputable def newton3Update (z : ℝ × ℝ) : ℝ × ℝ :=
  let x2 := z.1 * z.1
  let y2 := z.2 * z.2
  let xy := z.1 * z.2
  let x4 := x2 * x2
  let y4 := y2 * y2
  let x2y2 := xy * xy
  let fx := z.1 * (x4 - 10 * x2y2 + 5 * y4) + x2 - y2 - 1
  let fy := z.2 * (5 * x4 - 10 * x2y2 + y4) + 2 * xy
  let fpx := 5 * x4 - 30 * x2y2 + 5 * y4 + 2 * z.1
  let fpy := 20 * xy * (x2 - y2) + 2 * z.2
  let denom := fpx * fpx + fpy * fpy
  (z.1 - (fx * fpx + fy * fpy) / denom, z.2 - (fy * fpx - fx * fpy) / denom)

/-- Roots of `z^5 + z^2 - 1` (lines 452-458). -/
noncomputable def roots3 : List (ℝ × ℝ) :=
  [(0.808730600479392, 0),
   (0.464912201602898, 1.07147384027027),
   (0.464912201602898, -1.07147384027027),
   (-0.869277501842594, 0.38826940659974),
   (-0.869277501842594, -0.38826940659974)]

/-- `newton3Point` (lines 451-495). -/
noncomputable def newton3Point (zx zy : ℝ) : ℕ :=
  newtonGo newton3Denom newton3Update roots3 1e-6 50 (zx, zy)

/-- The glyph ramp `" .-:=*#%@"` (line 253) as its nine characters in order,
sparse to dense. -/
def ramp : List Char := [' ', '.', '-', ':', '=', '*', '#', '%', '@']

/-- The glyph index computed by `getPixelChar` (lines 258-262):
`t = iter / maxiter`, `t = pow(t, 1/gamma)`, `index = t * (paletteSize - 1)`.
The `(int)` conversion truncates toward zero, which on this non-negative value
is the floor. -/
noncomputable def glyphIndex (mi : ℕ) (gamma : ℝ) (iter : ℕ) : ℤ :=
  let t : ℝ := (iter : ℝ) / (mi : ℝ)
  let tg := t ^ (1 / gamma)
  ⌊tg * ((ramp.length : ℝ) - 1)⌋

/-- `getPixelChar` of the primary program (lines 252-264), gamma `2.2`. -/
noncomputable def getPixelChar (iter : ℕ) : Char :=
  if maxiter ≤ iter then ramp.getD (ramp.length - 1) ' '
  else ramp.getD (glyphIndex maxiter 2.2 iter).toNat ' '

/-- `getPixelChar` of the second program variant (lines 945-957): same ramp,
but gamma `1.8` and the smaller budget. -/
noncomputable def getPixelCharV2 (iter : ℕ) : Char :=
  if maxiterV2 ≤ iter then ramp.getD (ramp.length - 1) ' '
  else ramp.getD (glyphIndex maxiterV2 1.8 iter).toNat ' '

/-- Output triple of `getPixelColor`; the C++ `int` channels are modelled by
`ℤ` so that the `[0, 255]` bounds are genuine statements. -/
structure RGBColor where
  r : ℤ
  g : ℤ
  b : ℤ
  deriving DecidableEq

/-- The export color palettes (lines 31-37). -/
inductive ColorPalette where
  | GRAYSCALE
  | FIRE
  | OCEAN
  | FOREST
  deriving DecidableEq

/-- `getPixelColor` (lines 549-581): gamma-corrected `t`, then per-palette
channel multipliers; `FIRE.r`, `OCEAN.b` and `FOREST.g` are clamped with
`min(255, ...)`.  Each `(int)` cast truncates a non-negative value, i.e.
floors it.  The `switch` covers every palette, so the trailing
`return RGBColor(128,128,128)` of the source is dead code. -/
noncomputable def getPixelColor (palette : ColorPalette) (iter : ℕ) : RGBColor :=
  if maxiter ≤ iter then ⟨0, 0, 0⟩
  else
    let t0 : ℝ := (iter : ℝ) / (maxiter : ℝ)
    let gamma : ℝ := 2.2
    let t := t0 ^ (1 / gamma)
    match palette with
    | .GRAYSCALE =>
      let value := ⌊t * 255⌋
      ⟨value, value, value⟩
    | .FIRE => ⟨min 255 ⌊t * 255 * 1.5⌋, ⌊t * 255 * 0.8⌋, ⌊t * 255 * 0.2⌋⟩
    | .OCEAN => ⟨⌊t * 255 * 0.2⌋, ⌊t * 255 * 0.5⌋, min 255 ⌊t * 255 * 1.2⌋⟩
    | .FOREST => ⟨⌊t * 255 * 0.3⌋, min 255 ⌊t * 255 * 1.2⌋, ⌊t * 255 * 0.25⌋⟩

/-! ### Generic loop lemmas -/

/-- The escape loop executes at most `fuel` iterations. -/
theorem escapeSteps_le (f : ℝ × ℝ → ℝ × ℝ) (bound : ℝ) :
    ∀ n z, escapeSteps f bound n z ≤ n := by
  intro n
  induction n with
  | zero => intro z; simp [escapeSteps]
  | succ n ih =>
    intro z
    rw [escapeSteps]
    split
    · exact Nat.succ_le_succ (ih _)
    · exact Nat.zero_le _

/-- A state fixed by the step function that satisfies the guard exhausts the
whole fuel. -/
theorem escapeSteps_fixed (f : ℝ × ℝ → ℝ × ℝ) (bound : ℝ) (z : ℝ × ℝ)
    (hz : f z = z) (hg : z.1 * z.1 + z.2 * z.2 < bound) :
    ∀ n, escapeSteps f bound n z = n := by
  intro n
  induction n with
  | zero => simp [escapeSteps]
  | succ n ih => rw [escapeSteps, if_pos hg, hz, ih]

/-- The root-matching loop returns an index bounded by the number of roots. -/
theorem rootHit_le (roots : List (ℝ × ℝ)) (tol : ℝ) (z : ℝ × ℝ) :
    rootHit roots tol z ≤ roots.length := by
  induction roots with
  | nil => simp [rootHit]
  | cons w rest ih =>
    rw [rootHit]
    split
    · simp
    · rcases h : rootHit rest tol z with _ | k
      · simp
      · rw [h] at ih
        simpa using Nat.succ_le_succ ih

/-- The Newton loop returns an index bounded by the number of roots. -/
theorem newtonGo_le (denom : ℝ × ℝ → ℝ) (upd : ℝ × ℝ → ℝ × ℝ)
    (roots : List (ℝ × ℝ)) (tol : ℝ) :
    ∀ n z, newtonGo denom upd roots tol n z ≤ roots.length := by
  intro n
  induction n with
  | zero => intro z; simp [newtonGo]
  | succ n ih =>
    intro z
    rw [newtonGo]
    split
    · exact Nat.zero_le _
    · rcases h : rootHit roots tol (upd z) with _ | k
      · exact ih _
      · have := rootHit_le roots tol (upd z)
        rw [h] at this
        simpa using this

/-! ### Claim C2 -/

/-- Claim C2: every fractal evaluator returns a classification in range: each
escape-time evaluator returns an iteration count in `[0, maxiter]`, and each
Newton evaluator a root index in `[0, rootCount]` (3 for the cubics, 5 for the
quintic).  The results are natural numbers, so the lower bound 0 is inherent;
the theorem states every upper bound. -/
theorem evaluators_within_budget (cx cy jx jy : ℝ) :
    mandelbrotPoint cx cy ≤ maxiter ∧
    mandelbrotSinPoint cx cy ≤ maxiter ∧
    mandelbrotInvPoint cx cy ≤ maxiter ∧
    tricornPoint cx cy ≤ maxiter ∧
    juliaPoint jx jy cx cy ≤ maxiter ∧
    burningShipPoint cx cy ≤ maxiter ∧
    celticPoint cx cy ≤ maxiter ∧
    buffaloPoint cx cy ≤ maxiter ∧
    newton1Point cx cy ≤ 3 ∧
    newton2Point cx cy ≤ 3 ∧
    newton3Point cx cy ≤ 5 := by
  refine ⟨escapeSteps_le _ _ _ _, escapeSteps_le _ _ _ _, ?_, escapeSteps_le _ _ _ _,
    escapeSteps_le _ _ _ _, escapeSteps_le _ _ _ _, escapeSteps_le _ _ _ _,
    escapeSteps_le _ _ _ _, ?_, ?_, ?_⟩
  · rw [mandelbrotInvPoint]
    split
    · exact le_refl _
    · exact escapeSteps_le _ _ _ _
  · simpa [roots1] using newtonGo_le newton1Denom newton1Update roots1 1e-6 50 (cx, cy)
  · simpa [roots2] using newtonGo_le newton2Denom newton2Update roots2 1e-6 50 (cx, cy)
  · simpa [roots3] using newtonGo_le newton3Denom newton3Update roots3 1e-6 50 (cx, cy)

/-! ### Claim C8 -/

/-- Claim C8: the Mandelbrot evaluator at the interior point `(0, 0)` returns
exactly `maxiter`: the orbit is identically zero, so the loop exhausts the full
iteration budget. -/
theorem mandelbrot_origin_maxiter : mandelbrotPoint 0 0 = maxiter := by
  have hz : mandelStep 0 0 (0, 0) = (0, 0) := by
    simp [mandelStep]
  have hg : ((0 : ℝ), (0 : ℝ)).1 * ((0 : ℝ), (0 : ℝ)).1 +
      ((0 : ℝ), (0 : ℝ)).2 * ((0 : ℝ), (0 : ℝ)).2 < 4 := by norm_num
  exact escapeSteps_fixed _ _ _ hz hg maxiter

/-! ### Gamma-correction lemmas -/

/-- The normalized, gamma-corrected value is non-negative. -/
theorem gammaVal_nonneg (iter mi : ℕ) (e : ℝ) :
    0 ≤ ((iter : ℝ) / (mi : ℝ)) ^ e :=
  Real.rpow_nonneg (by positivity) _

/-- Below the budget, the gamma-corrected value stays below `1`. -/
theorem gammaVal_lt_one (iter mi : ℕ) (h : iter < mi) (e : ℝ) (he : 0 < e) :
    ((iter : ℝ) / (mi : ℝ)) ^ e < 1 := by
  have hmi : (0 : ℝ) < mi := by
    exact_mod_cast Nat.lt_of_le_of_lt (Nat.zero_le iter) h
  exact Real.rpow_lt_one (by positivity)
    ((div_lt_one hmi).mpr (by exact_mod_cast h)) he

/-- The gamma-corrected value is monotone in the iteration count. -/
theorem gammaVal_mono (i1 i2 mi : ℕ) (h : i1 ≤ i2) (e : ℝ) (he : 0 ≤ e) :
    ((i1 : ℝ) / (mi : ℝ)) ^ e ≤ ((i2 : ℝ) / (mi : ℝ)) ^ e := by
  have hcast : (i1 : ℝ) ≤ (i2 : ℝ) := by exact_mod_cast h
  have hdiv : (i1 : ℝ) / (mi : ℝ) ≤ (i2 : ℝ) / (mi : ℝ) := by gcongr
  exact Real.rpow_le_rpow (by positivity) hdiv he

/-! ### Claim C10 -/

/-- Claim C10: the glyph quantizer's index into the 9-character ramp is in
bounds: at or above the budget the quantizer uses index `paletteSize - 1 = 8`
directly, and below the budget the computed index is non-negative and strictly
less than `8`, so the character access never reads outside the ramp. -/
theorem glyphIndex_within_ramp (iter : ℕ) :
    (maxiter ≤ iter → getPixelChar iter = ramp.getD (ramp.length - 1) ' ') ∧
    (iter < maxiter →
      0 ≤ glyphIndex maxiter 2.2 iter ∧
      glyphIndex maxiter 2.2 iter < (ramp.length : ℤ) - 1) := by
  constructor
  · intro h
    rw [getPixelChar, if_pos h]
  · intro h
    have h0 : 0 ≤ ((iter : ℝ) / (maxiter : ℝ)) ^ ((1 : ℝ) / 2.2) :=
      gammaVal_nonneg iter maxiter _
    have h1 : ((iter : ℝ) / (maxiter : ℝ)) ^ ((1 : ℝ) / 2.2) < 1 :=
      gammaVal_lt_one iter maxiter h _ (by norm_num)
    have hlen : ((ramp.length : ℝ) - 1) = 8 := by norm_num [ramp]
    constructor
    · rw [glyphIndex]
      refine Int.floor_nonneg.mpr ?_
      rw [hlen]
      positivity
    · rw [glyphIndex]
      have : (ramp.length : ℤ) - 1 = 8 := by norm_num [ramp]
      rw [this]
      refine Int.floor_lt.mpr ?_
      rw [hlen]
      calc ((iter : ℝ) / (maxiter : ℝ)) ^ ((1 : ℝ) / 2.2) * 8 < 1 * 8 := by
            exact mul_lt_mul_of_pos_right h1 (by norm_num)
        _ = ((8 : ℤ) : ℝ) := by norm_num

/-- Witness for C10 at the concrete inputs `iter = 5` (below the budget) and
`iter = 300` (at the budget). -/
theorem glyphIndex_within_ramp_witness :
    ((5 : ℕ) < maxiter ∧
      0 ≤ glyphIndex maxiter 2.2 5 ∧ glyphIndex maxiter 2.2 5 < (ramp.length : ℤ) - 1) ∧
    (maxiter ≤ 300 ∧ getPixelChar 300 = ramp.getD (ramp.length - 1) ' ') :=
  ⟨⟨by decide, (glyphIndex_within_ramp 5).2 (by decide)⟩,
    ⟨by decide, (glyphIndex_within_ramp 300).1 (by decide)⟩⟩

/-! ### Claim C3 -/

/-- Claim C3 (amended): at or above the budget both glyph quantizers return
the densest glyph `@`; below the budget the primary quantizer indexes the ramp
at `floor((iter/maxiter)^(1/2.2) * (P-1))`, while the second program's
quantizer uses the exponent `1/1.8` in place of `1/2.2`. -/
theorem getPixelChar_formula (iter : ℕ) :
    (getPixelChar iter =
      if maxiter ≤ iter then '@'
      else ramp.getD (⌊((iter : ℝ) / (maxiter : ℝ)) ^ ((1 : ℝ) / 2.2) * 8⌋).toNat ' ') ∧
    (getPixelCharV2 iter =
      if maxiterV2 ≤ iter then '@'
      else ramp.getD (⌊((iter : ℝ) / (maxiterV2 : ℝ)) ^ ((1 : ℝ) / 1.8) * 8⌋).toNat ' ') := by
  have hlen : ((ramp.length : ℝ) - 1) = 8 := by norm_num [ramp]
  constructor
  · rw [getPixelChar, glyphIndex]
    split
    · rfl
    · rw [hlen]
  · rw [getPixelCharV2, glyphIndex]
    split
    · rfl
    · rw [hlen]

/-- For `0 ≤ x` and `q ≠ 0`, the `q`-th power of `x ^ (p/q)` is `x ^ p`. -/
theorem rpow_div_pow (x : ℝ) (hx : 0 ≤ x) (p q : ℕ) (hq : q ≠ 0) :
    (x ^ ((p : ℝ) / (q : ℝ))) ^ q = x ^ p := by
  have hq' : ((q : ℝ)) ≠ 0 := Nat.cast_ne_zero.mpr hq
  rw [← Real.rpow_natCast (x ^ ((p : ℝ) / (q : ℝ))) q, ← Real.rpow_mul hx,
    div_mul_cancel₀ _ hq', Real.rpow_natCast]

/-- Comparison of a rational power with a constant, from a comparison of
natural powers. -/
theorem rpow_div_lt (x c : ℝ) (hx : 0 ≤ x) (hc : 0 ≤ c) (p q : ℕ) (hq : q ≠ 0)
    (h : x ^ p < c ^ q) : x ^ ((p : ℝ) / (q : ℝ)) < c := by
  refine lt_of_pow_lt_pow_left₀ q hc ?_
  rw [rpow_div_pow x hx p q hq]
  exact h

/-- Lower comparison of a rational power with a constant, from a comparison of
natural powers. -/
theorem le_rpow_div (x c : ℝ) (hx : 0 ≤ x) (p q : ℕ) (hq : q ≠ 0)
    (h : c ^ q ≤ x ^ p) : c ≤ x ^ ((p : ℝ) / (q : ℝ)) := by
  refine le_of_pow_le_pow_left₀ hq (Real.rpow_nonneg hx _) ?_
  rw [rpow_div_pow x hx p q hq]
  exact h

/-- Counterexample to C3 as stated: at `iter = 2` the second program's glyph
quantizer does not return the character selected by the claimed
`1/2.2`-gamma formula (it returns `' '`, the formula selects `'.'`). -/
theorem getPixelCharV2_gamma_counterexample :
    getPixelCharV2 2 ≠
      ramp.getD (⌊((2 : ℝ) / (maxiterV2 : ℝ)) ^ ((1 : ℝ) / 2.2) * 8⌋).toNat ' ' := by
  have hx : (0 : ℝ) ≤ 1 / 50 := by norm_num
  -- the claimed index: `(1/50) ^ (5/11) ∈ [1/8, 1/4)`, so the floor is 1
  have he1 : ((1 : ℝ) / 2.2) = ((5 : ℕ) : ℝ) / ((11 : ℕ) : ℝ) := by norm_num
  have ha1 : (1 : ℝ) / 8 ≤ ((1 : ℝ) / 50) ^ (((5 : ℕ) : ℝ) / ((11 : ℕ) : ℝ)) :=
    le_rpow_div _ _ hx 5 11 (by norm_num) (by norm_num)
  have ha2 : ((1 : ℝ) / 50) ^ (((5 : ℕ) : ℝ) / ((11 : ℕ) : ℝ)) < 1 / 4 :=
    rpow_div_lt _ _ hx (by norm_num) 5 11 (by norm_num) (by norm_num)
  have hica : ⌊((2 : ℝ) / (maxiterV2 : ℝ)) ^ ((1 : ℝ) / 2.2) * 8⌋ = 1 := by
    have h2 : ((2 : ℝ) / (maxiterV2 : ℝ)) = 1 / 50 := by
      norm_num [maxiterV2]
    rw [h2, he1]
    refine Int.floor_eq_iff.mpr ⟨?_, ?_⟩ <;> push_cast <;> nlinarith
  -- the actual index: `(1/50) ^ (5/9) < 1/8`, so the floor is 0
  have he2 : ((1 : ℝ) / 1.8) = ((5 : ℕ) : ℝ) / ((9 : ℕ) : ℝ) := by norm_num
  have hb1 : ((1 : ℝ) / 50) ^ (((5 : ℕ) : ℝ) / ((9 : ℕ) : ℝ)) < 1 / 8 :=
    rpow_div_lt _ _ hx (by norm_num) 5 9 (by norm_num) (by norm_num)
  have hb0 : (0 : ℝ) ≤ ((1 : ℝ) / 50) ^ (((5 : ℕ) : ℝ) / ((9 : ℕ) : ℝ)) :=
    Real.rpow_nonneg hx _
  have hicb : glyphIndex maxiterV2 1.8 2 = 0 := by
    rw [glyphIndex]
    have h2 : (((2 : ℕ) : ℝ) / (maxiterV2 : ℝ)) = 1 / 50 := by
      norm_num [maxiterV2]
    have hlen : ((ramp.length : ℝ) - 1) = 8 := by norm_num [ramp]
    rw [h2, he2, hlen]
    refine Int.floor_eq_iff.mpr ⟨?_, ?_⟩ <;> push_cast <;> nlinarith
  have hv2 : getPixelCharV2 2 = ' ' := by
    rw [getPixelCharV2, if_neg (by decide), hicb]
    rfl
  rw [hv2, hica]
  decide

/-! ### Claim C5 -/

/-- Claim C5: the inverted-Mandelbrot evaluator returns `maxiter` when the
input radius is below `1e-10`, and otherwise delegates to the Mandelbrot
evaluator at the circle-inverted point `(cx/r^2, -cy/r^2)`; in particular the
origin returns `maxiter`. -/
theorem mandelbrotInv_circle_inversion :
    (∀ cx cy : ℝ,
      mandelbrotInvPoint cx cy =
        if Real.sqrt (cx * cx + cy * cy) < 1e-10 then maxiter
        else
          mandelbrotPoint (cx / Real.sqrt (cx * cx + cy * cy) ^ 2)
            (-cy / Real.sqrt (cx * cx + cy * cy) ^ 2)) ∧
    mandelbrotInvPoint 0 0 = maxiter := by
  have key : ∀ cx cy : ℝ,
      mandelbrotInvPoint cx cy =
        if Real.sqrt (cx * cx + cy * cy) < 1e-10 then maxiter
        else
          mandelbrotPoint (cx / Real.sqrt (cx * cx + cy * cy) ^ 2)
            (-cy / Real.sqrt (cx * cx + cy * cy) ^ 2) := by
    intro cx cy
    rw [mandelbrotInvPoint]
    simp only [pow_two]
  refine ⟨key, ?_⟩
  rw [key 0 0]
  rw [if_pos]
  norm_num

/-! ### Claim C4 -/

/-- Claim C4: whenever the current state of a Newton iteration has a vanishing
derivative denominator, the loop stops immediately and returns root index `0`;
in particular the seed `z = 0`, a critical point of `z^3 - 1`, returns `0`. -/
theorem newton_denom_zero_stops :
    (∀ (z : ℝ × ℝ) (n : ℕ), newton1Denom z = 0 →
      newtonGo newton1Denom newton1Update roots1 1e-6 (n + 1) z = 0) ∧
    (∀ (z : ℝ × ℝ) (n : ℕ), newton2Denom z = 0 →
      newtonGo newton2Denom newton2Update roots2 1e-6 (n + 1) z = 0) ∧
    newton1Point 0 0 = 0 := by
  refine ⟨?_, ?_, ?_⟩
  · intro z n h
    rw [newtonGo, if_pos h]
  · intro z n h
    rw [newtonGo, if_pos h]
  · have h0 : newton1Denom (0, 0) = 0 := by norm_num [newton1Denom]
    rw [newton1Point, show (50 : ℕ) = 49 + 1 from rfl, newtonGo, if_pos h0]

/-- Witness for C4: the vanishing-denominator hypothesis is discharged at the
critical points `0` of `z^3 - 1` and `sqrt(2/3)` of `z^3 - 2z + 2`. -/
theorem newton_denom_zero_stops_witness :
    (newton1Denom (0, 0) = 0 ∧
      newtonGo newton1Denom newton1Update roots1 1e-6 (49 + 1) (0, 0) = 0) ∧
    (newton2Denom (Real.sqrt (2 / 3), 0) = 0 ∧
      newtonGo newton2Denom newton2Update roots2 1e-6 (49 + 1) (Real.sqrt (2 / 3), 0) = 0) := by
  have h1 : newton1Denom (0, 0) = 0 := by norm_num [newton1Denom]
  have h2 : newton2Denom (Real.sqrt (2 / 3), 0) = 0 := by
    rw [newton2Denom]
    simp only
    rw [Real.mul_self_sqrt (by norm_num : (0 : ℝ) ≤ 2 / 3)]
    norm_num
  exact ⟨⟨h1, newton_denom_zero_stops.1 (0, 0) 49 h1⟩,
    ⟨h2, newton_denom_zero_stops.2.1 (Real.sqrt (2 / 3), 0) 49 h2⟩⟩

/-! ### Claim C6 -/

/-- An unclamped channel `(int)(t * c)` is monotone in `t` for `0 ≤ c`. -/
theorem channel_mono {t1 t2 c : ℝ} (h : t1 ≤ t2) (hc : 0 ≤ c) :
    ⌊t1 * c⌋ ≤ ⌊t2 * c⌋ :=
  Int.floor_le_floor (mul_le_mul_of_nonneg_right h hc)

/-- An unclamped channel `(int)(t * c)` lies in `[0, 255]` when `t ∈ [0, 1)`
and `0 ≤ c ≤ 255`. -/
theorem channel_bounds {t c : ℝ} (h0 : 0 ≤ t) (h1 : t < 1) (hc0 : 0 ≤ c)
    (hc : c ≤ 255) : 0 ≤ ⌊t * c⌋ ∧ ⌊t * c⌋ ≤ 255 := by
  constructor
  · exact Int.floor_nonneg.mpr (mul_nonneg h0 hc0)
  · have htc : t * c ≤ 255 := by nlinarith
    calc ⌊t * c⌋ ≤ ⌊(255 : ℝ)⌋ := Int.floor_le_floor htc
      _ = 255 := by norm_num

/-- A clamped channel `min(255, (int)(t * c))` lies in `[0, 255]` when
`0 ≤ t` and `0 ≤ c`. -/
theorem clamped_bounds {t c : ℝ} (h0 : 0 ≤ t) (hc0 : 0 ≤ c) :
    0 ≤ min 255 ⌊t * c⌋ ∧ min 255 ⌊t * c⌋ ≤ 255 :=
  ⟨le_min (by norm_num) (Int.floor_nonneg.mpr (mul_nonneg h0 hc0)),
    min_le_left _ _⟩

/-- Claim C6: per palette and per channel, `getPixelColor` is monotonically
non-decreasing in the iteration count below the budget; every channel lies in
`[0, 255]` (clamped, never wrapping); and any iteration count at or above the
budget maps to black. -/
theorem getPixelColor_mono_and_clamped :
    (∀ (p : ColorPalette) (i1 i2 : ℕ), i1 ≤ i2 → i2 < maxiter →
      (getPixelColor p i1).r ≤ (getPixelColor p i2).r ∧
      (getPixelColor p i1).g ≤ (getPixelColor p i2).g ∧
      (getPixelColor p i1).b ≤ (getPixelColor p i2).b) ∧
    (∀ (p : ColorPalette) (i : ℕ),
      0 ≤ (getPixelColor p i).r ∧ (getPixelColor p i).r ≤ 255 ∧
      0 ≤ (getPixelColor p i).g ∧ (getPixelColor p i).g ≤ 255 ∧
      0 ≤ (getPixelColor p i).b ∧ (getPixelColor p i).b ≤ 255) ∧
    (∀ (p : ColorPalette) (i : ℕ), maxiter ≤ i → getPixelColor p i = ⟨0, 0, 0⟩) := by
  refine ⟨?_, ?_, ?_⟩
  · intro p i1 i2 h12 h2
    have h1 : i1 < maxiter := Nat.lt_of_le_of_lt h12 h2
    have hmono : ((i1 : ℝ) / (maxiter : ℝ)) ^ ((1 : ℝ) / 2.2) ≤
        ((i2 : ℝ) / (maxiter : ℝ)) ^ ((1 : ℝ) / 2.2) :=
      gammaVal_mono i1 i2 maxiter h12 _ (by norm_num)
    rw [getPixelColor, getPixelColor, if_neg (Nat.not_le.mpr h1),
      if_neg (Nat.not_le.mpr h2)]
    cases p with
    | GRAYSCALE =>
      dsimp only
      exact ⟨channel_mono hmono (by norm_num), channel_mono hmono (by norm_num),
        channel_mono hmono (by norm_num)⟩
    | FIRE =>
      dsimp only
      simp only [mul_assoc]
      exact ⟨min_le_min le_rfl (channel_mono hmono (by norm_num)),
        channel_mono hmono (by norm_num), channel_mono hmono (by norm_num)⟩
    | OCEAN =>
      dsimp only
      simp only [mul_assoc]
      exact ⟨channel_mono hmono (by norm_num), channel_mono hmono (by norm_num),
        min_le_min le_rfl (channel_mono hmono (by norm_num))⟩
    | FOREST =>
      dsimp only
      simp only [mul_assoc]
      exact ⟨channel_mono hmono (by norm_num),
        min_le_min le_rfl (channel_mono hmono (by norm_num)),
        channel_mono hmono (by norm_num)⟩
  · intro p i
    by_cases hi : maxiter ≤ i
    · rw [getPixelColor, if_pos hi]
      cases p <;> norm_num
    · have hi' : i < maxiter := Nat.not_le.mp hi
      have h0 : 0 ≤ ((i : ℝ) / (maxiter : ℝ)) ^ ((1 : ℝ) / 2.2) :=
        gammaVal_nonneg i maxiter _
      have h1 : ((i : ℝ) / (maxiter : ℝ)) ^ ((1 : ℝ) / 2.2) < 1 :=
        gammaVal_lt_one i maxiter hi' _ (by norm_num)
      rw [getPixelColor, if_neg hi]
      cases p with
      | GRAYSCALE =>
        dsimp only
        obtain ⟨hl, hr⟩ := channel_bounds h0 h1 (by norm_num : (0:ℝ) ≤ 255) le_rfl
        exact ⟨hl, hr, hl, hr, hl, hr⟩
      | FIRE =>
        dsimp only
        simp only [mul_assoc]
        obtain ⟨ar, br⟩ := clamped_bounds h0 (by norm_num : (0:ℝ) ≤ 255 * 1.5)
        obtain ⟨ag, bg⟩ := channel_bounds h0 h1 (by norm_num : (0:ℝ) ≤ 255 * 0.8) (by norm_num)
        obtain ⟨ab, bb⟩ := channel_bounds h0 h1 (by norm_num : (0:ℝ) ≤ 255 * 0.2) (by norm_num)
        exact ⟨ar, br, ag, bg, ab, bb⟩
      | OCEAN =>
        dsimp only
        simp only [mul_assoc]
        obtain ⟨ar, br⟩ := channel_bounds h0 h1 (by norm_num : (0:ℝ) ≤ 255 * 0.2) (by norm_num)
        obtain ⟨ag, bg⟩ := channel_bounds h0 h1 (by norm_num : (0:ℝ) ≤ 255 * 0.5) (by norm_num)
        obtain ⟨ab, bb⟩ := clamped_bounds h0 (by norm_num : (0:ℝ) ≤ 255 * 1.2)
        exact ⟨ar, br, ag, bg, ab, bb⟩
      | FOREST =>
        dsimp only
        simp only [mul_assoc]
        obtain ⟨ar, br⟩ := channel_bounds h0 h1 (by norm_num : (0:ℝ) ≤ 255 * 0.3) (by norm_num)
        obtain ⟨ag, bg⟩ := clamped_bounds h0 (by norm_num : (0:ℝ) ≤ 255 * 1.2)
        obtain ⟨ab, bb⟩ := channel_bounds h0 h1 (by norm_num : (0:ℝ) ≤ 255 * 0.25) (by norm_num)
        exact ⟨ar, br, ag, bg, ab, bb⟩
  · intro p i hi
    rw [getPixelColor, if_pos hi]

/-- Witness for C6 at the concrete inputs `FIRE`, `i1 = 0 ≤ i2 = 1 < 300`,
and at `iter = 300` for the interior-to-black conjunct. -/
theorem getPixelColor_mono_and_clamped_witness :
    (((0 : ℕ) ≤ 1 ∧ (1 : ℕ) < maxiter) ∧
      ((getPixelColor ColorPalette.FIRE 0).r ≤ (getPixelColor ColorPalette.FIRE 1).r ∧
        (getPixelColor ColorPalette.FIRE 0).g ≤ (getPixelColor ColorPalette.FIRE 1).g ∧
        (getPixelColor ColorPalette.FIRE 0).b ≤ (getPixelColor ColorPalette.FIRE 1).b)) ∧
    (maxiter ≤ 300 ∧ getPixelColor ColorPalette.FIRE 300 = ⟨0, 0, 0⟩) :=
  ⟨⟨⟨by decide, by decide⟩,
      getPixelColor_mono_and_clamped.1 ColorPalette.FIRE 0 1 (by decide) (by decide)⟩,
    ⟨by decide, getPixelColor_mono_and_clamped.2.2 ColorPalette.FIRE 300 (by decide)⟩⟩

/-! ### Claim C9 -/

/-- Unrolling the escape loop: one step executed. -/
theorem escapeSteps_eq_pos (f : ℝ × ℝ → ℝ × ℝ) (bound : ℝ) (n m : ℕ) (z zn : ℝ × ℝ)
    (hn : n = m + 1) (h : z.1 * z.1 + z.2 * z.2 < bound) (hz : f z = zn) :
    escapeSteps f bound n z = escapeSteps f bound m zn + 1 := by
  subst hn hz
  rw [escapeSteps, if_pos h]

/-- Unrolling the escape loop: the guard fails, zero further steps. -/
theorem escapeSteps_eq_zero (f : ℝ × ℝ → ℝ × ℝ) (bound : ℝ) (n m : ℕ) (z : ℝ × ℝ)
    (hn : n = m + 1) (h : ¬ z.1 * z.1 + z.2 * z.2 < bound) :
    escapeSteps f bound n z = 0 := by
  subst hn
  rw [escapeSteps, if_neg h]

/-- Claim C9: Burning Ship and Buffalo are not symmetric under negating the
imaginary part of the input: at `(-1.7, 0.5)` both evaluators escape after 2
iterations but at `(-1.7, -0.5)` after 3, so the results differ. -/
theorem burningShip_buffalo_asymmetric :
    (∃ cx cy : ℝ, burningShipPoint cx cy ≠ burningShipPoint cx (-cy)) ∧
    (∃ cx cy : ℝ, buffaloPoint cx cy ≠ buffaloPoint cx (-cy)) := by
  have habs1 : |(-1.7 : ℝ) * 0.5| = 0.85 := by
    rw [abs_of_nonpos (by norm_num : (-1.7 : ℝ) * 0.5 ≤ 0)]
    norm_num
  have habs2 : |(-1.7 : ℝ) * -0.5| = 0.85 := by
    rw [abs_of_nonneg (by norm_num : (0 : ℝ) ≤ (-1.7 : ℝ) * -0.5)]
    norm_num
  have habs3 : |(0.94 : ℝ) * 1.2| = 1.128 := by
    rw [abs_of_nonneg (by norm_num : (0 : ℝ) ≤ (0.94 : ℝ) * 1.2)]
    norm_num
  constructor
  · refine ⟨-1.7, 0.5, ?_⟩
    have hp : burningShipPoint (-1.7) 0.5 = 2 := by
      have s1 : burningShipStep (-1.7) 0.5 (0, 0) = (-1.7, 0.5) := by
        simp only [burningShipStep, Prod.mk.injEq]
        norm_num
      have s2 : burningShipStep (-1.7) 0.5 (-1.7, 0.5) = (0.94, 2.2) := by
        simp only [burningShipStep, Prod.mk.injEq]
        rw [habs1]
        norm_num
      rw [burningShipPoint]
      rw [escapeSteps_eq_pos _ _ maxiter 299 _ _ (by norm_num [maxiter]) (by norm_num) s1]
      rw [escapeSteps_eq_pos _ _ 299 298 _ _ (by norm_num) (by norm_num) s2]
      rw [escapeSteps_eq_zero _ _ 298 297 _ (by norm_num) (by norm_num)]
    have hm : burningShipPoint (-1.7) (-0.5) = 3 := by
      have s1 : burningShipStep (-1.7) (-0.5) (0, 0) = (-1.7, -0.5) := by
        simp only [burningShipStep, Prod.mk.injEq]
        norm_num
      have s2 : burningShipStep (-1.7) (-0.5) (-1.7, -0.5) = (0.94, 1.2) := by
        simp only [burningShipStep, Prod.mk.injEq]
        rw [habs2]
        norm_num
      have s3 : burningShipStep (-1.7) (-0.5) (0.94, 1.2) = (-2.2564, 1.756) := by
        simp only [burningShipStep, Prod.mk.injEq]
        rw [habs3]
        norm_num
      rw [burningShipPoint]
      rw [escapeSteps_eq_pos _ _ maxiter 299 _ _ (by norm_num [maxiter]) (by norm_num) s1]
      rw [escapeSteps_eq_pos _ _ 299 298 _ _ (by norm_num) (by norm_num) s2]
      rw [escapeSteps_eq_pos _ _ 298 297 _ _ (by norm_num) (by norm_num) s3]
      rw [escapeSteps_eq_zero _ _ 297 296 _ (by norm_num) (by norm_num)]
    rw [hp, hm]
    norm_num
  · refine ⟨-1.7, 0.5, ?_⟩
    have hp : buffaloPoint (-1.7) 0.5 = 2 := by
      have s1 : buffaloStep (-1.7) 0.5 (0, 0) = (-1.7, 0.5) := by
        simp only [buffaloStep, Prod.mk.injEq]
        norm_num
      have s2 : buffaloStep (-1.7) 0.5 (-1.7, 0.5) = (0.94, 2.2) := by
        simp only [buffaloStep, Prod.mk.injEq]
        rw [habs1, abs_of_nonneg (by norm_num : (0 : ℝ) ≤ (-1.7 : ℝ) * -1.7 - 0.5 * 0.5)]
        norm_num
      rw [buffaloPoint]
      rw [escapeSteps_eq_pos _ _ maxiter 299 _ _ (by norm_num [maxiter]) (by norm_num) s1]
      rw [escapeSteps_eq_pos _ _ 299 298 _ _ (by norm_num) (by norm_num) s2]
      rw [escapeSteps_eq_zero _ _ 298 297 _ (by norm_num) (by norm_num)]
    have hm : buffaloPoint (-1.7) (-0.5) = 3 := by
      have s1 : buffaloStep (-1.7) (-0.5) (0, 0) = (-1.7, -0.5) := by
        simp only [buffaloStep, Prod.mk.injEq]
        norm_num
      have s2 : buffaloStep (-1.7) (-0.5) (-1.7, -0.5) = (0.94, 1.2) := by
        simp only [buffaloStep, Prod.mk.injEq]
        rw [habs2, abs_of_nonneg
          (by norm_num : (0 : ℝ) ≤ (-1.7 : ℝ) * -1.7 - (-0.5 : ℝ) * -0.5)]
        norm_num
      have s3 : buffaloStep (-1.7) (-0.5) (0.94, 1.2) = (-1.1436, 1.756) := by
        simp only [buffaloStep, Prod.mk.injEq]
        rw [habs3, abs_of_nonpos (by norm_num : (0.94 : ℝ) * 0.94 - 1.2 * 1.2 ≤ 0)]
        norm_num
      rw [buffaloPoint]
      rw [escapeSteps_eq_pos _ _ maxiter 299 _ _ (by norm_num [maxiter]) (by norm_num) s1]
      rw [escapeSteps_eq_pos _ _ 299 298 _ _ (by norm_num) (by norm_num) s2]
      rw [escapeSteps_eq_pos _ _ 298 297 _ _ (by norm_num) (by norm_num) s3]
      rw [escapeSteps_eq_zero _ _ 297 296 _ (by norm_num) (by norm_num)]
    rw [hp, hm]
    norm_num

/-! ### Viewport data model and coordinate mappers -/

/-- `FractalSettings` (lines 47-53): per-fractal viewport parameters.  The
default constructor gives `centerX = centerY = 0`, `scale = 0.01`,
`juliaCx = -0.7`, `juliaCy = 0.27`. -/
structure FractalSettings where
  centerX : ℝ
  centerY : ℝ
  scale : ℝ
  juliaCx : ℝ
  juliaCy : ℝ

/-- Live plane x-coordinate of column `x` (lines 504, 528):
`cx = (x - width/2.) * scaleX + centerX`, with `scaleX = settings.scale`
(`updateScales`, line 133). -/
noncomputable def liveCx (s : FractalSettings) (width x : ℕ) : ℝ :=
  ((x : ℝ) - (width : ℝ) / 2) * s.scale + s.centerX

/-- Live plane y-coordinate of row `y` (lines 505, 529):
`cy = (y - height/2.) * scaleY + centerY`, with
`scaleY = settings.scale * aspectRatio` (line 134); the renderer member
`aspectRatio` is the argument `aspect`. -/
noncomputable def liveCy (s : FractalSettings) (aspect : ℝ) (height y : ℕ) : ℝ :=
  ((y : ℝ) - (height : ℝ) / 2) * (s.scale * aspect) + s.centerY

/-- Horizontal export scale `scX = width * settings.scale` (line 588),
where `width` is the live terminal width. -/
noncomputable def exportScX (s : FractalSettings) (width : ℕ) : ℝ :=
  (width : ℝ) * s.scale

/-- Vertical export scale `scY = width * imageHeight / imageWidth *
settings.scale` (line 588): `width * imageHeight / imageWidth` is evaluated in
C++ `int` arithmetic, a truncating division; on these non-negative operands it
is the integer division of `ℤ`. -/
noncomputable def exportScY (s : FractalSettings) (width imageHeight imageWidth : ℕ) : ℝ :=
  ((((width : ℤ) * (imageHeight : ℤ)) / (imageWidth : ℤ) : ℤ) : ℝ) * s.scale

/-- Export plane x-coordinate of pixel column `x` (line 593):
`cx = ((double)x / imageWidth - 0.5) * scX + centerX`. -/
noncomputable def exportCx (s : FractalSettings) (width imageWidth x : ℕ) : ℝ :=
  ((x : ℝ) / (imageWidth : ℝ) - 0.5) * exportScX s width + s.centerX

/-- Export plane y-coordinate of pixel row `y` (line 594):
`cy = ((double)y / imageHeight - 0.5) * scY + centerY`. -/
noncomputable def exportCy (s : FractalSettings) (width imageHeight imageWidth y : ℕ) : ℝ :=
  ((y : ℝ) / (imageHeight : ℝ) - 0.5) * exportScY s width imageHeight imageWidth + s.centerY

/-! ### Claim C1 -/

/-- Counterexample to C1 as stated: with viewport `center = (0,0)`,
`scale = 1`, `aspectRatio = 2`, live raster `2 × 2` and export size `2 × 2`,
the cell `(x, y) = (0, 0)` maps to `cy = -2` live but to `cy = -1` in the
export mapping, so the two mappings are not equal cell-for-cell. -/
theorem export_live_mismatch :
    exportCy ⟨0, 0, 1, -0.7, 0.27⟩ 2 2 2 0 ≠ liveCy ⟨0, 0, 1, -0.7, 0.27⟩ 2 2 0 := by
  have he : exportCy ⟨0, 0, 1, -0.7, 0.27⟩ 2 2 2 0 = -1 := by
    rw [exportCy, exportScY]
    norm_num
  have hl : liveCy ⟨0, 0, 1, -0.7, 0.27⟩ 2 2 0 = -2 := by
    rw [liveCy]
    norm_num
  rw [he, hl]
  norm_num

/-- Claim C1 (amended): at an export size equal to the live raster size, the
export mapping reproduces the live x-coordinates cell-for-cell, and it
reproduces the live y-coordinates of the mapper evaluated with
`aspectRatio = 1` — the export vertical scale carries the factor
`imageHeight/imageWidth` in place of the live mapper's `aspectRatio`, so the
live view is reproduced exactly only when `aspectRatio` is `1`. -/
theorem export_matches_live_at_aspect_one (s : FractalSettings) (a : ℝ)
    (w h x y : ℕ) (hw : 0 < w) (hh : 0 < h) :
    exportCx s w w x = liveCx s w x ∧
    (a = 1 → exportCy s w h w y = liveCy s a h y) := by
  have hw' : ((w : ℝ)) ≠ 0 := Nat.cast_ne_zero.mpr hw.ne'
  have hh' : ((h : ℝ)) ≠ 0 := Nat.cast_ne_zero.mpr hh.ne'
  constructor
  · rw [exportCx, exportScX, liveCx]
    field_simp
    ring
  · intro ha
    subst ha
    have hdiv : ((w : ℤ) * (h : ℤ)) / (w : ℤ) = (h : ℤ) :=
      Int.mul_ediv_cancel_left _ (by exact_mod_cast hw.ne')
    rw [exportCy, exportScY, liveCy, hdiv]
    push_cast
    field_simp
    ring

/-- Witness for the amended C1 at the Mandelbrot start viewport, live raster
`3 × 2`, export size `3 × 2`, cell `(1, 1)`, `aspectRatio = 1`. -/
theorem export_matches_live_at_aspect_one_witness :
    exportCx ⟨-0.5, 0, 0.015, -0.7, 0.27⟩ 3 3 1 = liveCx ⟨-0.5, 0, 0.015, -0.7, 0.27⟩ 3 1 ∧
    exportCy ⟨-0.5, 0, 0.015, -0.7, 0.27⟩ 3 2 3 1 =
      liveCy ⟨-0.5, 0, 0.015, -0.7, 0.27⟩ 1 2 1 :=
  ⟨(export_matches_live_at_aspect_one ⟨-0.5, 0, 0.015, -0.7, 0.27⟩ 1 3 2 1 1
      (by decide) (by decide)).1,
    (export_matches_live_at_aspect_one ⟨-0.5, 0, 0.015, -0.7, 0.27⟩ 1 3 2 1 1
      (by decide) (by decide)).2 rfl⟩

/-! ### Renderer state and input handling -/

/-- `FractalType` (lines 16-29), without the `FRACTAL_COUNT` sentinel. -/
inductive FractalType where
  | MANDELBROT
  | MANDELBROT_SIN
  | MANDELBROT_INV
  | TRICORN
  | JULIA
  | BURNING_SHIP
  | CELTIC
  | BUFFALO
  | NEWTON_1
  | NEWTON_2
  | NEWTON_3
  deriving DecidableEq

/-- The `FractalSettings` default constructor (line 52). -/
noncomputable def defaultSettings : FractalSettings :=
  ⟨0, 0, 0.01, -0.7, 0.27⟩

/-- The per-fractal settings installed by the `FractalRenderer` constructor
(lines 74-119); fields it does not mention keep their defaults. -/
noncomputable def initSettings : FractalType → FractalSettings
  | .MANDELBROT => { defaultSettings with centerX := -0.5, centerY := 0, scale := 0.015 }
  | .MANDELBROT_SIN => { defaultSettings with centerX := 0, centerY := 0, scale := 0.05 }
  | .MANDELBROT_INV => { defaultSettings with centerX := 0.8, centerY := 0, scale := 0.025 }
  | .TRICORN => { defaultSettings with centerX := 0, centerY := 0, scale := 0.02 }
  | .JULIA =>
    { defaultSettings with
      centerX := 0
      centerY := 0
      scale := 0.015
      juliaCx := -0.7
      juliaCy := 0.27 }
  | .BURNING_SHIP => { defaultSettings with centerX := -0.5, centerY := -0.5, scale := 0.02 }
  | .CELTIC => { defaultSettings with centerX := -0.6, centerY := -0.0, scale := 0.02 }
  | .BUFFALO => { defaultSettings with centerX := -0.5, centerY := -0.5, scale := 0.02 }
  | .NEWTON_1 => { defaultSettings with centerX := 0, centerY := 0, scale := 0.02 }
  | .NEWTON_2 => { defaultSettings with centerX := 0, centerY := 0, scale := 0.01 }
  | .NEWTON_3 => { defaultSettings with centerX := 0, centerY := 0, scale := 0.02 }

/-- The mutable `FractalRenderer` state driven by `handleInput`: the settings
array, current fractal and palette, the aspect-ratio member, terminal size,
and the main-loop flag. -/
structure RendererState where
  settings : FractalType → FractalSettings
  currentFractal : FractalType
  currentPalette : ColorPalette
  aspect : ℝ
  width : ℕ
  height : ℕ
  running : Bool

/-- The renderer state right after construction (lines 74-129), with terminal
size `w × h`: current fractal `MANDELBROT`, palette `GRAYSCALE`, aspect-ratio
member `2.11`, `running = true`. -/
noncomputable def initState (w h : ℕ) : RendererState :=
  ⟨initSettings, .MANDELBROT, .GRAYSCALE, 2.11, w, h, true⟩

/-- One keystroke handled by `handleInput` (lines 737-760), with the data the
submenus read from the user attached to the event: the menu's selection, the
typed aspect ratio, the typed Julia parameters, the chosen export palette. -/
inductive InputEvent where
  | quit
  | menuSelect (f : FractalType)
  | menuQuit
  | setAspect (r : ℝ)
  | setJulia (jx jy : ℝ)
  | savePalette (p : ColorPalette)
  | keyUp
  | keyDown
  | keyLeft
  | keyRight
  | keyW
  | keyS
  | keyA
  | keyD
  | zoomIn
  | zoomOut
  | resize (w h : ℕ)

/-- Update the settings entry of the current fractal (the
`FractalSettings& settings = fractalSettings[currentFractal]` reference). -/
noncomputable def modifyCurrent (st : RendererState)
    (upd : FractalSettings → FractalSettings) : RendererState :=
  { st with settings := fun k => if k = st.currentFractal then upd (st.settings k) else st.settings k }

/-- `handleInput` (lines 737-760) together with the state effects of the
submenus it dispatches to: `selectFractalMenu` (lines 191-250) sets the
current fractal or clears `running`; `setAspectRatio` (lines 155-169) accepts
the typed ratio only inside `[0.5, 3.0]`; `setJuliaParams` (lines 171-189)
runs only when the current fractal is `JULIA` (the `case 'c'` guard);
`imageSave` (lines 650-725) sets the palette.  Pans move the center by
`0.01`/`0.1` of the visible extent, zooms multiply the scale by `0.8`/`1.2`,
`KEY_RESIZE` refreshes the terminal size. -/
noncomputable def handleInput (st : RendererState) (ev : InputEvent) : RendererState :=
  match ev with
  | .quit => { st with running := false }
  | .menuSelect f => { st with currentFractal := f }
  | .menuQuit => { st with running := false }
  | .setAspect r => if 0.5 ≤ r ∧ r ≤ 3.0 then { st with aspect := r } else st
  | .setJulia jx jy =>
    if st.currentFractal = .JULIA then
      { st with settings := fun k =>
          if k = .JULIA then { st.settings k with juliaCx := jx, juliaCy := jy }
          else st.settings k }
    else st
  | .savePalette p => { st with currentPalette := p }
  | .keyUp => modifyCurrent st fun s =>
      { s with centerY := s.centerY - 0.01 * s.scale * st.height * st.aspect }
  | .keyDown => modifyCurrent st fun s =>
      { s with centerY := s.centerY + 0.01 * s.scale * st.height * st.aspect }
  | .keyLeft => modifyCurrent st fun s =>
      { s with centerX := s.centerX - 0.01 * s.scale * st.width }
  | .keyRight => modifyCurrent st fun s =>
      { s with centerX := s.centerX + 0.01 * s.scale * st.width }
  | .keyW => modifyCurrent st fun s =>
      { s with centerY := s.centerY - 0.1 * s.scale * st.height * st.aspect }
  | .keyS => modifyCurrent st fun s =>
      { s with centerY := s.centerY + 0.1 * s.scale * st.height * st.aspect }
  | .keyA => modifyCurrent st fun s =>
      { s with centerX := s.centerX - 0.1 * s.scale * st.width }
  | .keyD => modifyCurrent st fun s =>
      { s with centerX := s.centerX + 0.1 * s.scale * st.width }
  | .zoomIn => modifyCurrent st fun s => { s with scale := s.scale * 0.8 }
  | .zoomOut => modifyCurrent st fun s => { s with scale := s.scale * 1.2 }
  | .resize w h => { st with width := w, height := h }

/-! ### Claim C7 -/

/-- Claim C7: every fractal's scale is positive in the initial state, and
every input-handling operation — in particular the zooms, which multiply the
scale by `0.8` or `1.2`, and the pans — preserves positivity of every
fractal's scale. -/
theorem scale_positive_invariant :
    (∀ (w h : ℕ) (f : FractalType), 0 < ((initState w h).settings f).scale) ∧
    (∀ (st : RendererState) (ev : InputEvent),
      (∀ f, 0 < (st.settings f).scale) →
      ∀ f, 0 < ((handleInput st ev).settings f).scale) := by
  constructor
  · intro w h f
    cases f <;> norm_num [initState, initSettings, defaultSettings]
  · intro st ev hinv f
    cases ev with
    | quit => exact hinv f
    | menuSelect g => exact hinv f
    | menuQuit => exact hinv f
    | setAspect r =>
      simp only [handleInput]
      split <;> exact hinv f
    | setJulia jx jy =>
      simp only [handleInput]
      split
      · dsimp only
        split <;> exact hinv f
      · exact hinv f
    | savePalette p => exact hinv f
    | keyUp =>
      simp only [handleInput, modifyCurrent]
      split <;> exact hinv f
    | keyDown =>
      simp only [handleInput, modifyCurrent]
      split <;> exact hinv f
    | keyLeft =>
      simp only [handleInput, modifyCurrent]
      split <;> exact hinv f
    | keyRight =>
      simp only [handleInput, modifyCurrent]
      split <;> exact hinv f
    | keyW =>
      simp only [handleInput, modifyCurrent]
      split <;> exact hinv f
    | keyS =>
      simp only [handleInput, modifyCurrent]
      split <;> exact hinv f
    | keyA =>
      simp only [handleInput, modifyCurrent]
      split <;> exact hinv f
    | keyD =>
      simp only [handleInput, modifyCurrent]
      split <;> exact hinv f
    | zoomIn =>
      simp only [handleInput, modifyCurrent]
      split
      · exact mul_pos (hinv f) (by norm_num)
      · exact hinv f
    | zoomOut =>
      simp only [handleInput, modifyCurrent]
      split
      · exact mul_pos (hinv f) (by norm_num)
      · exact hinv f
    | resize w h => exact hinv f

/-- Witness for C7: from the initial `80 × 24` state, a zoom-in keeps the
Mandelbrot scale positive. -/
theorem scale_positive_invariant_witness :
    0 < ((handleInput (initState 80 24) InputEvent.zoomIn).settings
      FractalType.MANDELBROT).scale :=
  scale_positive_invariant.2 (initState 80 24) InputEvent.zoomIn
    (fun f => scale_positive_invariant.1 80 24 f) FractalType.MANDELBROT

end Fractals
